import Mathlib

/-!
Shallow embedding of the gophkeeper-server core (record service, token
service, postgres repositories, gRPC error mapping) and proofs of the
spec claims C1 to C10.

Conventions of the embedding:
* UUIDs are modelled as natural numbers; 0 plays the role of uuid.Nil.
* Timestamps are natural numbers (abstract clock ticks).
* Byte strings are lists of naturals.
* A postgres table is a list of rows; each SQL statement becomes a pure
  function on that list, faithful to the WHERE clauses of the query text.
* Go errors become the inductive GoErr; fmt.Errorf with a %w verb becomes
  the wrapped constructor, and errors.Is becomes errIs, which unwraps.
-/

namespace Gophkeeper

/-- gRPC status codes that appear in the handler layer of the server. -/
inductive GrpcCode where
  | ok
  | notFound
  | internal
  | invalidArgument
  | unauthenticated
  deriving DecidableEq, Repr

/-- A gRPC status as produced by status.Error(code, message). -/
structure GrpcStatus where
  code : GrpcCode
  message : String
  deriving DecidableEq, Repr

/-- Errors of the server. The first block models the sentinel values of
the model package (model.ErrNotFound, model.ErrTokenRevoked,
model.ErrTokenExpired, model.ErrTokenMismatch); apiRecordNotFound and
apiUserNotFound model the APIError values built by the external
gophkeeper-api errors package; wrapped models fmt.Errorf("msg: %w", err);
msgErr models fmt.Errorf without a wrap verb. -/
inductive GoErr where
  | errNotFound
  | errTokenRevoked
  | errTokenExpired
  | errTokenMismatch
  | apiRecordNotFound (recordID : Nat)
  | apiUserNotFound (userID : Nat)
  | wrapped (msg : String) (inner : GoErr)
  | msgErr (msg : String)
  deriving DecidableEq, Repr

/-- errors.Is: an error matches a target if it equals it or wraps it at
any depth. -/
def errIs : GoErr → GoErr → Bool
  | GoErr.wrapped msg inner, target =>
      (GoErr.wrapped msg inner == target) || errIs inner target
  | e, target => e == target

/-- Modelled from the spec: the APIError type of the external
github.com/dtroode/gophkeeper-api errors package, which is not part of
this repository. It carries a gRPC code and a stable message; per the
spec (section 7) record and user lookups that fail map to the NotFound
wire code. -/
structure APIError where
  grpcCode : GrpcCode
  message : String
  deriving DecidableEq, Repr

/-- Modelled from the spec: the Go type assertion err.(*apiErrors.APIError)
in handleError. It succeeds only when the error value is itself an
APIError; a wrapped APIError does not match a type assertion. -/
def asAPIError : GoErr → Option APIError
  | GoErr.apiRecordNotFound _ =>
      some { grpcCode := GrpcCode.notFound, message := "record not found" }
  | GoErr.apiUserNotFound _ =>
      some { grpcCode := GrpcCode.notFound, message := "user not found" }
  | _ => none

/-- handleError of the gRPC handler package: an APIError passes through
with its own code and message; otherwise the error is compared with
model.ErrNotFound using the switch statement, which tests plain equality
(not errors.Is), and everything else becomes Internal. -/
def handleError (err : GoErr) : GrpcStatus :=
  match asAPIError err with
  | some apiErr => { code := apiErr.grpcCode, message := apiErr.message }
  | none =>
      if err == GoErr.errNotFound then
        { code := GrpcCode.notFound, message := "record not found" }
      else
        { code := GrpcCode.internal, message := "internal server error" }

/-- model.Record: a stored record row. requestID 0 plays the role of
uuid.Nil, which the SQL turns into NULL. -/
structure Record where
  id : Nat
  ownerID : Nat
  name : String
  description : String
  encryptedData : List Nat
  s3Key : String
  encryptedKey : List Nat
  alg : String
  type : String
  encryptedChunkSize : Int
  requestID : Nat
  createdAt : Nat
  updatedAt : Nat
  deletedAt : Option Nat
  deriving DecidableEq, Repr

/-- model.Tombstone: id of a deleted record and its deletion time. -/
structure Tombstone where
  id : Nat
  deletedAt : Nat
  deriving DecidableEq, Repr

namespace RecordRepository

/-- RecordRepository.GetByID: SELECT ... WHERE id = $1 AND deleted_at IS
NULL, with pgx.ErrNoRows mapped to model.ErrNotFound. -/
def GetByID (db : List Record) (id : Nat) : Except GoErr Record :=
  match db.find? (fun r => r.id == id && r.deletedAt.isNone) with
  | some r => Except.ok r
  | none => Except.error GoErr.errNotFound

/-- RecordRepository.SoftDelete: UPDATE records SET deleted_at = NOW(),
updated_at = NOW() WHERE id = $1 AND deleted_at IS NULL; zero affected
rows become model.ErrNotFound. -/
def SoftDelete (db : List Record) (id : Nat) (now : Nat) :
    Except GoErr (List Record) :=
  if db.countP (fun r => r.id == id && r.deletedAt.isNone) == 0 then
    Except.error GoErr.errNotFound
  else
    Except.ok (db.map (fun r =>
      if r.id == id && r.deletedAt.isNone then
        { r with deletedAt := some now, updatedAt := now }
      else r))

/-- RecordRepository.Create: INSERT ... ON CONFLICT (owner_id, request_id)
WHERE request_id IS NOT NULL DO NOTHING, with a UNION ALL fallback SELECT
of the existing row. The returned record is scanned without owner_id and
request_id; owner_id is then copied from the input record. created_at and
updated_at are the NOW() defaults of the table. -/
def Create (db : List Record) (record : Record) (now : Nat) :
    List Record × Record :=
  let conflict :=
    if record.requestID == 0 then none
    else db.find? (fun r =>
      r.ownerID == record.ownerID && r.requestID == record.requestID)
  match conflict with
  | some existing => (db, { existing with ownerID := record.ownerID, requestID := 0 })
  | none =>
      let inserted := { record with createdAt := now, updatedAt := now, deletedAt := none }
      (db ++ [inserted], { inserted with requestID := 0 })

end RecordRepository

namespace RecordService

/-- Record.GetRecord of the service package: load by id (the store error
is wrapped), then compare the owner with the caller; a foreign record is
answered with the api record-not-found error. -/
def GetRecord (db : List Record) (userID recordID : Nat) :
    Except GoErr Record :=
  match RecordRepository.GetByID db recordID with
  | Except.error e => Except.error (GoErr.wrapped "failed to get record by id" e)
  | Except.ok record =>
      if record.ownerID != userID then
        Except.error (GoErr.apiRecordNotFound recordID)
      else
        Except.ok record

end RecordService

namespace RecordHandler

/-- The GetRecord gRPC endpoint: calls the service and maps a service
error through handleError. -/
def GetRecord (db : List Record) (userID recordID : Nat) :
    Except GrpcStatus Record :=
  match RecordService.GetRecord db userID recordID with
  | Except.error e => Except.error (handleError e)
  | Except.ok r => Except.ok r

end RecordHandler

/-- Effects issued against the blob store and the record store, in
program order; used to state the compensation contract of saveRecord. -/
inductive StoreEffect where
  | upload (key : String)
  | insert (id : Nat)
  | deleteBlob (key : String)
  deriving DecidableEq, Repr

/-- Outcomes of the external calls a single saveRecord makes: the blob
upload, the record insert, and the compensation delete. none means the
call succeeds. The delete outcome is listed because the code receives it;
saveRecord logs and discards it. -/
structure SaveEnv where
  uploadErr : Option GoErr
  createErr : Option GoErr
  deleteErr : Option GoErr
  deriving Repr

/-- The zero value of model.Record, which the postgres Create returns
alongside an error. -/
def zeroRecord : Record :=
  { id := 0, ownerID := 0, name := "", description := "", encryptedData := [],
    s3Key := "", encryptedKey := [], alg := "", type := "",
    encryptedChunkSize := 0, requestID := 0, createdAt := 0, updatedAt := 0,
    deletedAt := none }

namespace RecordService

/-- The insert half of Record.saveRecord. The Go code reads
`record, err := s.recordStore.Create(ctx, record)`: the short
declaration reassigns record, and on failure the postgres Create returns
the zero model.Record together with the error, so the compensation
branch afterwards tests the zero record S3 key (always empty) and the
storage.Delete is never reached. The insert effect is keyed by the row
the Create call received. -/
def saveRecordInsert (env : SaveEnv) (db : List Record) (record : Record)
    (now : Nat) (eff : List StoreEffect) :
    Except GoErr Record × List Record × List StoreEffect :=
  let effInsert := eff ++ [StoreEffect.insert record.id]
  match env.createErr with
  | some e =>
      let record : Record := zeroRecord
      if record.s3Key == "" then
        (Except.error (GoErr.wrapped "failed to create record" e), db, effInsert)
      else
        (Except.error (GoErr.wrapped "failed to create record" e), db,
         effInsert ++ [StoreEffect.deleteBlob record.s3Key])
  | none =>
      let created := RecordRepository.Create db record now
      (Except.ok created.2, created.1, effInsert)

/-- Record.saveRecord: with a data reader the S3 key must be non-empty
and the blob is uploaded first; only on upload success is the record
inserted. Without a reader the insert happens directly. -/
def saveRecord (env : SaveEnv) (db : List Record) (record : Record)
    (hasDataReader : Bool) (now : Nat) :
    Except GoErr Record × List Record × List StoreEffect :=
  if hasDataReader then
    if record.s3Key == "" then
      (Except.error (GoErr.msgErr "S3 key is empty"), db, [])
    else
      match env.uploadErr with
      | some e =>
          (Except.error (GoErr.wrapped "failed to upload to storage" e), db,
           [StoreEffect.upload record.s3Key])
      | none => saveRecordInsert env db record now [StoreEffect.upload record.s3Key]
  else saveRecordInsert env db record now []

/-- model.CreateRecordParams. -/
structure CreateRecordParams where
  userID : Nat
  name : String
  description : String
  encryptedData : List Nat
  encryptedKey : List Nat
  alg : String
  type : String
  requestID : Nat
  deriving Repr

/-- Record.CreateRecord: check the user exists, build a record with a
freshly generated id and no S3 key, and save it without a data reader.
The user store is modelled as the list of existing user ids. -/
def CreateRecord (env : SaveEnv) (userDb : List Nat) (db : List Record)
    (params : CreateRecordParams) (newID : Nat) (now : Nat) :
    Except GoErr Record × List Record :=
  if !(userDb.contains params.userID) then
    (Except.error (GoErr.apiUserNotFound params.userID), db)
  else
    let record : Record :=
      { id := newID, ownerID := params.userID, name := params.name,
        description := params.description, encryptedData := params.encryptedData,
        s3Key := "", encryptedKey := params.encryptedKey, alg := params.alg,
        type := params.type, encryptedChunkSize := 0,
        requestID := params.requestID, createdAt := 0, updatedAt := 0,
        deletedAt := none }
    match saveRecord env db record false now with
    | (Except.ok saved, db2, _) => (Except.ok saved, db2)
    | (Except.error e, db2, _) => (Except.error (GoErr.wrapped "failed to save record" e), db2)

/-- The record a successful small-record CreateRecord returns: the
freshly built row with the NOW() defaults of the table, scanned back
without the request id column. Used to state the idempotence claim. -/
def createdRecord (params : CreateRecordParams) (newID now : Nat) : Record :=
  { id := newID, ownerID := params.userID, name := params.name,
    description := params.description, encryptedData := params.encryptedData,
    s3Key := "", encryptedKey := params.encryptedKey, alg := params.alg,
    type := params.type, encryptedChunkSize := 0, requestID := 0,
    createdAt := now, updatedAt := now, deletedAt := none }

/-- Record.DeleteRecord: load the record, mask a missing or foreign
record as the api record-not-found error, issue a best-effort blob delete
(elided: its error is logged and the flow continues), then soft-delete. -/
def DeleteRecord (db : List Record) (userID recordID : Nat) (now : Nat) :
    Except GoErr (List Record) :=
  match RecordRepository.GetByID db recordID with
  | Except.error e =>
      if errIs e GoErr.errNotFound then
        Except.error (GoErr.apiRecordNotFound recordID)
      else Except.error (GoErr.wrapped "failed to get record" e)
  | Except.ok record =>
      if record.ownerID != userID then
        Except.error (GoErr.apiRecordNotFound recordID)
      else
        match RecordRepository.SoftDelete db recordID now with
        | Except.error e =>
            if errIs e GoErr.errNotFound then
              Except.error (GoErr.apiRecordNotFound recordID)
            else Except.error (GoErr.wrapped "failed to soft delete record" e)
        | Except.ok db2 => Except.ok db2

end RecordService

/-- A one-record database for the C1 evaluation: record 1 owned by user 1. -/
def c1Db : List Record :=
  [{ id := 1, ownerID := 1, name := "n", description := "",
     encryptedData := [7], s3Key := "", encryptedKey := [1], alg := "a",
     type := "note", encryptedChunkSize := 0, requestID := 0,
     createdAt := 5, updatedAt := 5, deletedAt := none }]

/-- model.RecordMetadata as carried in stream frames. -/
structure RecordMetadata where
  id : Nat
  name : String
  description : String
  type : String
  encryptedKey : List Nat
  alg : String
  chunkSize : Int
  requestID : Nat
  deriving DecidableEq, Repr

/-- model.GetRecordStreamResponse: one outbound frame of the download
stream. dataChunk none models a Go nil slice. -/
structure GetRecordStreamResponse where
  metadata : Option RecordMetadata
  dataChunk : Option (List Nat)
  isLastChunk : Bool
  deriving DecidableEq, Repr

namespace RecordService

/-- Record.buildRecordMetadata: the metadata frame body built from a
record (the request id is not copied). -/
def buildRecordMetadata (record : Record) : RecordMetadata :=
  { id := record.id, name := record.name, description := record.description,
    type := record.type, encryptedKey := record.encryptedKey,
    alg := record.alg, chunkSize := record.encryptedChunkSize, requestID := 0 }

/-- The download loop of Record.StreamRecordToClient, driven by
io.ReadFull on a buffer of chunkSize bytes: a full read is sent with
isLastChunk=false; EOF with zero bytes ends the loop without a frame; a
short final read (io.ErrUnexpectedEOF) is sent with isLastChunk=true and
ends the loop. The chunkSize = 0 guard is unreachable: the caller has
already rejected a non-positive chunk size. -/
def sendDataChunks (chunkSize : Nat) (content : List Nat) :
    List GetRecordStreamResponse :=
  if chunkSize = 0 then []
  else if content = [] then []
  else if content.length < chunkSize then
    [{ metadata := none, dataChunk := some content, isLastChunk := true }]
  else
    { metadata := none, dataChunk := some (content.take chunkSize),
      isLastChunk := false } :: sendDataChunks chunkSize (content.drop chunkSize)
  termination_by content.length
  decreasing_by
    simp only [List.length_drop]
    omega

/-- Record.StreamRecordToClient: authorize through GetRecord, send the
metadata frame, then stream the blob in encryptedChunkSize chunks. The
blob store is the map from S3 keys to contents; none models a download
failure. The result is the list of sent frames and the returned error.
Stream sends are modelled as always succeeding and the per-iteration
context-cancellation checks are not modelled. -/
def StreamRecordToClient (db : List Record) (storage : String → Option (List Nat))
    (userID recordID : Nat) :
    List GetRecordStreamResponse × Option GoErr :=
  if userID == 0 then ([], some (GoErr.msgErr "userID cannot be nil"))
  else if recordID == 0 then ([], some (GoErr.msgErr "recordID cannot be nil"))
  else
    match GetRecord db userID recordID with
    | Except.error e =>
        if errIs e GoErr.errNotFound then
          ([], some (GoErr.apiRecordNotFound recordID))
        else ([], some (GoErr.wrapped "failed to get record" e))
    | Except.ok record =>
        let metaFrame : GetRecordStreamResponse :=
          { metadata := some (buildRecordMetadata record), dataChunk := none,
            isLastChunk := false }
        if record.s3Key == "" then
          ([metaFrame], some (GoErr.msgErr "no data available for record"))
        else
          match storage record.s3Key with
          | none =>
              ([metaFrame],
               some (GoErr.wrapped "failed to get data stream from S3"
                 (GoErr.wrapped "failed to download from storage"
                   (GoErr.msgErr "storage backend"))))
          | some content =>
              if record.encryptedChunkSize ≤ 0 then
                ([metaFrame], some (GoErr.msgErr "invalid encrypted chunk size"))
              else
                (metaFrame :: sendDataChunks record.encryptedChunkSize.toNat content,
                 none)

end RecordService

/-- Closed form of the download loop: floor(len/cs) full chunks, all
unmarked, followed by one marked short chunk exactly when cs does not
divide the content length. Proved equal to sendDataChunks below; the
claim about last-chunk marking is read off this shape. -/
def chunkFrames (cs : Nat) (content : List Nat) : List GetRecordStreamResponse :=
  (List.range (content.length / cs)).map (fun i =>
    { metadata := none, dataChunk := some ((content.drop (i * cs)).take cs),
      isLastChunk := false })
  ++ (if content.length % cs = 0 then []
      else [{ metadata := none,
              dataChunk := some (content.drop (content.length / cs * cs)),
              isLastChunk := true }])

/-- The record of the C7 evaluation: a binary record with blob key k and
chunk size 4, owned by user 1. -/
def c7Rec : Record :=
  { id := 1, ownerID := 1, name := "f", description := "",
    encryptedData := [], s3Key := "k", encryptedKey := [9], alg := "a",
    type := "binary", encryptedChunkSize := 4, requestID := 0,
    createdAt := 1, updatedAt := 1, deletedAt := none }

/-- One-record database for the C7 evaluation. -/
def c7Db : List Record := [c7Rec]

/-- Blob store for the C7 evaluation: key k holds exactly four bytes, an
exact multiple of the chunk size. -/
def c7Storage : String → Option (List Nat) :=
  fun key => if key = "k" then some [1, 2, 3, 4] else none

/-- model.CreateRecordStreamRequest: one inbound frame of the upload
stream. dataChunk none models a Go nil slice. -/
structure CreateRecordStreamRequest where
  metadata : Option RecordMetadata
  dataChunk : Option (List Nat)
  isMetadata : Bool
  deriving DecidableEq, Repr

/-- A metadata frame carrying m. -/
def metadataFrame (m : RecordMetadata) : CreateRecordStreamRequest :=
  { metadata := some m, dataChunk := none, isMetadata := true }

/-- A chunk frame carrying the payload c. -/
def chunkFrame (c : List Nat) : CreateRecordStreamRequest :=
  { metadata := none, dataChunk := some c, isMetadata := false }

/-- A frame the metadata-reading loop skips while counting an attempt: a
metadata frame with nil metadata, or a chunk frame whose payload is nil
or empty. -/
def skipFrame (req : CreateRecordStreamRequest) : Bool :=
  if req.isMetadata then req.metadata.isNone
  else
    match req.dataChunk with
    | none => true
    | some chunk => chunk.isEmpty

namespace RecordService

/-- The loop body of Record.readMetadataFromStream with the remaining
attempt budget as fuel (maxAttempts = 100 at the top call, each skipped
frame consumes one attempt). An exhausted stream is the io.EOF case; a
chunk frame with a non-empty payload is the protocol violation; nil
metadata and nil or empty chunks are skipped. -/
def readMetadataAux :
    Nat → List CreateRecordStreamRequest →
    Except GoErr (RecordMetadata × List CreateRecordStreamRequest)
  | 0, _ => Except.error (GoErr.msgErr "metadata not received after 100 attempts")
  | _ + 1, [] => Except.error (GoErr.msgErr "stream closed before metadata received")
  | attemptsLeft + 1, req :: rest =>
      if req.isMetadata then
        match req.metadata with
        | none => readMetadataAux attemptsLeft rest
        | some m => Except.ok (m, rest)
      else
        match req.dataChunk with
        | some chunk =>
            if 0 < chunk.length then
              Except.error
                (GoErr.msgErr "received data chunk before metadata - protocol violation")
            else readMetadataAux attemptsLeft rest
        | none => readMetadataAux attemptsLeft rest

/-- Record.readMetadataFromStream with maxAttempts = 100. -/
def readMetadataFromStream (frames : List CreateRecordStreamRequest) :
    Except GoErr (RecordMetadata × List CreateRecordStreamRequest) :=
  readMetadataAux 100 frames

/-- The pump goroutine of CreateRecordStream: copies chunk payloads of
the remaining frames into the upload pipe in order; metadata frames are
ignored with a warning and nil chunks are skipped. -/
def pumpDataChunks : List CreateRecordStreamRequest → List Nat
  | [] => []
  | req :: rest =>
      if req.isMetadata then pumpDataChunks rest
      else
        match req.dataChunk with
        | none => pumpDataChunks rest
        | some chunk => chunk ++ pumpDataChunks rest

/-- Record.validateMetadata. -/
def validateMetadata : Option RecordMetadata → Option GoErr
  | none => some (GoErr.msgErr "metadata is nil")
  | some metadata =>
      if metadata.name = "" then some (GoErr.msgErr "record name is required")
      else if 255 < metadata.name.length then
        some (GoErr.msgErr "record name too long")
      else if metadata.type = "" then some (GoErr.msgErr "record type is required")
      else if !([ "login", "note", "card", "binary" ].contains metadata.type) then
        some (GoErr.msgErr "invalid record type")
      else if metadata.encryptedKey = [] then
        some (GoErr.msgErr "encrypted key is required")
      else if metadata.alg = "" then
        some (GoErr.msgErr "encryption algorithm is required")
      else if metadata.type = "binary" then
        if metadata.chunkSize ≤ 0 then
          some (GoErr.msgErr "chunk size must be positive for binary records")
        else none
      else none

/-- Record.generateS3Key: user-<uid>/record-<rid>/file-<fid>, or the
empty string for a nil user id. -/
def generateS3Key (userID recordID fileID : Nat) : String :=
  if userID == 0 then ""
  else "user-" ++ toString userID ++ "/record-" ++ toString recordID
    ++ "/file-" ++ toString fileID

/-- Record.CreateRecordStream: check the user, read and validate the
metadata (the first valid metadata frame wins), generate the S3 key,
build the record from the accepted metadata and save it with a data
reader attached. The pumped bytes are modelled by pumpDataChunks on the
remaining frames; stream receive errors and context cancellation are
not modelled. -/
def CreateRecordStream (env : SaveEnv) (userDb : List Nat) (db : List Record)
    (userID : Nat) (frames : List CreateRecordStreamRequest)
    (newID s3RecordID s3FileID now : Nat) :
    Except GoErr Record × List Record × List StoreEffect × List Nat :=
  if !(userDb.contains userID) then
    (Except.error (GoErr.apiUserNotFound userID), db, [], [])
  else
    match readMetadataFromStream frames with
    | Except.error e =>
        (Except.error (GoErr.wrapped "failed to read metadata" e), db, [], [])
    | Except.ok (metadata, rest) =>
        match validateMetadata (some metadata) with
        | some e => (Except.error (GoErr.wrapped "invalid metadata" e), db, [], [])
        | none =>
            let s3Key := generateS3Key userID s3RecordID s3FileID
            if s3Key = "" then
              (Except.error (GoErr.msgErr "failed to generate S3 key"), db, [], [])
            else
              let record : Record :=
                { id := newID, ownerID := userID, name := metadata.name,
                  description := metadata.description, encryptedData := [],
                  s3Key := s3Key, encryptedKey := metadata.encryptedKey,
                  alg := metadata.alg, type := metadata.type,
                  encryptedChunkSize := metadata.chunkSize,
                  requestID := metadata.requestID, createdAt := 0,
                  updatedAt := 0, deletedAt := none }
              match saveRecord env db record true now with
              | (Except.ok saved, db2, eff) =>
                  (Except.ok saved, db2, eff, pumpDataChunks rest)
              | (Except.error e, db2, eff) =>
                  (Except.error (GoErr.wrapped "failed to save record" e), db2, eff,
                   pumpDataChunks rest)

end RecordService

/-- ORDER BY updated_at ASC as a sorting relation on records. -/
def updatedLE (a b : Record) : Prop := a.updatedAt ≤ b.updatedAt

instance : DecidableRel updatedLE := fun _ _ => Nat.decLe _ _

instance : IsTotal Record updatedLE := ⟨fun a b => Nat.le_total a.updatedAt b.updatedAt⟩

instance : IsTrans Record updatedLE := ⟨fun _ _ _ h1 h2 => Nat.le_trans h1 h2⟩

/-- ORDER BY deleted_at ASC as a sorting relation on tombstones. -/
def deletedLE (a b : Tombstone) : Prop := a.deletedAt ≤ b.deletedAt

instance : DecidableRel deletedLE := fun _ _ => Nat.decLe _ _

instance : IsTotal Tombstone deletedLE := ⟨fun a b => Nat.le_total a.deletedAt b.deletedAt⟩

instance : IsTrans Tombstone deletedLE := ⟨fun _ _ _ h1 h2 => Nat.le_trans h1 h2⟩

namespace RecordRepository

/-- RecordRepository.GetUpdatedAfter: SELECT ... WHERE owner_id = $1 AND
deleted_at IS NULL AND updated_at > $2 ORDER BY updated_at ASC. -/
def GetUpdatedAfter (db : List Record) (userID updatedAfter : Nat) : List Record :=
  List.insertionSort updatedLE
    (db.filter (fun r =>
      r.ownerID == userID && r.deletedAt.isNone && decide (updatedAfter < r.updatedAt)))

/-- RecordRepository.GetUpdatedAfterByType: the same with AND type = $2. -/
def GetUpdatedAfterByType (db : List Record) (userID : Nat) (recordType : String)
    (updatedAfter : Nat) : List Record :=
  List.insertionSort updatedLE
    (db.filter (fun r =>
      r.ownerID == userID && r.type == recordType && r.deletedAt.isNone &&
        decide (updatedAfter < r.updatedAt)))

/-- RecordRepository.GetDeletedAfter: SELECT id, deleted_at ... WHERE
owner_id = $1 AND deleted_at IS NOT NULL AND deleted_at > $2 ORDER BY
deleted_at ASC. -/
def GetDeletedAfter (db : List Record) (userID deletedAfter : Nat) : List Tombstone :=
  List.insertionSort deletedLE
    ((db.filter (fun r =>
        r.ownerID == userID &&
          match r.deletedAt with
          | none => false
          | some d => decide (deletedAfter < d))).map
      (fun r => { id := r.id, deletedAt := r.deletedAt.getD 0 }))

/-- RecordRepository.GetDeletedAfterByType: the same with AND type = $2. -/
def GetDeletedAfterByType (db : List Record) (userID : Nat) (recordType : String)
    (deletedAfter : Nat) : List Tombstone :=
  List.insertionSort deletedLE
    ((db.filter (fun r =>
        r.ownerID == userID && r.type == recordType &&
          match r.deletedAt with
          | none => false
          | some d => decide (deletedAfter < d))).map
      (fun r => { id := r.id, deletedAt := r.deletedAt.getD 0 }))

end RecordRepository

/-- The externally visible store and clock accesses of ListRecordsDelta,
in program order; the single clock read happens after the reads. -/
inductive DeltaEvent where
  | readUpdated
  | readDeleted
  | clockRead
  deriving DecidableEq, Repr

namespace RecordService

/-- Record.ListRecordsDelta: dispatch on the presence of a type filter,
read the updated rows, optionally the tombstones, and then read the
clock once; that value is the returned serverTime. The event list is the
order in which the calls happen in the code. -/
def ListRecordsDelta (db : List Record) (userID : Nat) (recordType : String)
    (updatedAfter : Nat) (includeDeleted : Bool) (now : Nat) :
    (List Record × List Tombstone × Nat) × List DeltaEvent :=
  if recordType = "" then
    let records := RecordRepository.GetUpdatedAfter db userID updatedAfter
    if includeDeleted then
      let tombs := RecordRepository.GetDeletedAfter db userID updatedAfter
      ((records, tombs, now),
       [DeltaEvent.readUpdated, DeltaEvent.readDeleted, DeltaEvent.clockRead])
    else
      ((records, [], now), [DeltaEvent.readUpdated, DeltaEvent.clockRead])
  else
    let records := RecordRepository.GetUpdatedAfterByType db userID recordType updatedAfter
    if includeDeleted then
      let tombs := RecordRepository.GetDeletedAfterByType db userID recordType updatedAfter
      ((records, tombs, now),
       [DeltaEvent.readUpdated, DeltaEvent.readDeleted, DeltaEvent.clockRead])
    else
      ((records, [], now), [DeltaEvent.readUpdated, DeltaEvent.clockRead])

end RecordService

/-- C9 evaluation data: a live record of user 1 updated at 2. -/
def c9r1 : Record :=
  { id := 1, ownerID := 1, name := "a", description := "", encryptedData := [1],
    s3Key := "", encryptedKey := [1], alg := "x", type := "login",
    encryptedChunkSize := 0, requestID := 0, createdAt := 2, updatedAt := 2,
    deletedAt := none }

/-- C9 evaluation data: a live record of user 1 updated at 1. -/
def c9r2 : Record :=
  { id := 2, ownerID := 1, name := "b", description := "", encryptedData := [2],
    s3Key := "", encryptedKey := [1], alg := "x", type := "note",
    encryptedChunkSize := 0, requestID := 0, createdAt := 1, updatedAt := 1,
    deletedAt := none }

/-- C9 evaluation data: a record of user 1 soft-deleted at 5. -/
def c9r3 : Record :=
  { id := 3, ownerID := 1, name := "c", description := "", encryptedData := [3],
    s3Key := "", encryptedKey := [1], alg := "x", type := "note",
    encryptedChunkSize := 0, requestID := 0, createdAt := 1, updatedAt := 5,
    deletedAt := some 5 }

/-- C9 evaluation data: a live record of another user. -/
def c9r4 : Record :=
  { id := 4, ownerID := 2, name := "d", description := "", encryptedData := [4],
    s3Key := "", encryptedKey := [1], alg := "x", type := "login",
    encryptedChunkSize := 0, requestID := 0, createdAt := 3, updatedAt := 3,
    deletedAt := none }

/-- The four-record database of the C9 evaluation. -/
def c9Db : List Record := [c9r1, c9r2, c9r3, c9r4]

/-- Metadata used in the C8 evaluation. -/
def c8Meta : RecordMetadata :=
  { id := 0, name := "f", description := "", type := "binary",
    encryptedKey := [1], alg := "a", chunkSize := 4, requestID := 0 }

/-- An environment whose external calls all succeed. -/
def okEnv : SaveEnv := { uploadErr := none, createErr := none, deleteErr := none }

/-- The streamed record of the C2 evaluation: blob key set, about to be
inserted. -/
def c2Rec : Record :=
  { id := 9, ownerID := 1, name := "f", description := "",
    encryptedData := [], s3Key := "user-1/record-2/file-3",
    encryptedKey := [1], alg := "a", type := "binary",
    encryptedChunkSize := 4, requestID := 0, createdAt := 0,
    updatedAt := 0, deletedAt := none }

/-- C6 witness input: first create with request id 7 and payload [88]. -/
def c6p1 : RecordService.CreateRecordParams :=
  { userID := 1, name := "n", description := "", encryptedData := [88],
    encryptedKey := [1], alg := "a", type := "login", requestID := 7 }

/-- C6 witness input: second create with the same key and payload [89]. -/
def c6p2 : RecordService.CreateRecordParams :=
  { userID := 1, name := "m", description := "", encryptedData := [89],
    encryptedKey := [2], alg := "a", type := "login", requestID := 7 }

/-- model.RefreshToken: one persisted refresh-token row. -/
structure RefreshToken where
  id : Nat
  jti : Nat
  userID : Nat
  tokenHash : List Nat
  issuedAt : Nat
  expiresAt : Nat
  revokedAt : Option Nat
  rotatedFromJTI : Option Nat
  createdAt : Nat
  updatedAt : Nat
  deriving DecidableEq, Repr

namespace RefreshTokenRepository

/-- RefreshTokenRepository.GetByJTI: SELECT ... WHERE jti = $1, NoRows
mapped to model.ErrNotFound. -/
def GetByJTI (db : List RefreshToken) (jti : Nat) : Except GoErr RefreshToken :=
  match db.find? (fun rt => rt.jti == jti) with
  | some rt => Except.ok rt
  | none => Except.error GoErr.errNotFound

/-- RefreshTokenRepository.RevokeByJTI: UPDATE refresh_tokens SET
revoked_at = NOW(), updated_at = NOW() WHERE jti = $1 AND revoked_at IS
NULL. The Go function discards the command tag, so zero affected rows is
not an error: it always returns nil. -/
def RevokeByJTI (db : List RefreshToken) (jti now : Nat) : List RefreshToken :=
  db.map (fun rt =>
    if rt.jti == jti && rt.revokedAt.isNone then
      { rt with revokedAt := some now, updatedAt := now }
    else rt)

end RefreshTokenRepository

/-- refreshTTL = 30 days, in the abstract clock unit (seconds). -/
def refreshTTL : Nat := 30 * 24 * 60 * 60

/-- The token manager as the TokenService consumes it through the
model.TokenManager interface: parseRefreshToken recovers (userID, jti)
from a presented refresh-token string. hashRefresh stands for the
service helper computing SHA-256 of the string; the service only ever
compares hash values for equality, so the hash is abstracted to an
arbitrary function on strings. -/
structure TokenManagerModel where
  parseRefreshToken : String → Except GoErr (Nat × Nat)
  hashRefresh : String → List Nat

/-- The call-specific inputs of one Refresh execution: the outcomes of
GenerateAccessToken and GenerateRefreshToken, the store insert outcome,
the fresh row id, and the clock values at the three points the code
reads time (validation, the revoke UPDATE NOW(), and building the new
row). -/
structure RefreshCall where
  genAccess : Except GoErr String
  genRefresh : Except GoErr (String × Nat)
  createErr : Option GoErr
  newID : Nat
  nowValidate : Nat
  nowRevoke : Nat
  nowCreate : Nat

/-- equalBytes: subtle.ConstantTimeCompare(a, b) == 1, which holds
exactly when the byte strings are equal; the constant-time execution of
the comparison is a property of the primitive, outside this model. -/
def equalBytes (a b : List Nat) : Bool := a == b

/-- validateRecord of the token service: Revoked when revokedAt is set,
else Expired when now is after expiresAt, else Mismatch when the
presented hash differs from the stored one, else valid. -/
def validateRecord (rt : RefreshToken) (presentedHash : List Nat) (now : Nat) :
    Option GoErr :=
  if rt.revokedAt.isSome then some GoErr.errTokenRevoked
  else if rt.expiresAt < now then some GoErr.errTokenExpired
  else if !(equalBytes rt.tokenHash presentedHash) then some GoErr.errTokenMismatch
  else none

/-- The rotated row Refresh persists: fresh id and jti, the hash of the
new refresh token, rotatedFromJTI pointing at the old row. -/
def mkRotatedToken (mgr : TokenManagerModel) (call : RefreshCall)
    (userID oldJTI : Nat) (refresh : String) (newJTI : Nat) : RefreshToken :=
  { id := call.newID, jti := newJTI, userID := userID,
    tokenHash := mgr.hashRefresh refresh, issuedAt := call.nowCreate,
    expiresAt := call.nowCreate + refreshTTL, revokedAt := none,
    rotatedFromJTI := some oldJTI, createdAt := call.nowCreate,
    updatedAt := call.nowCreate }

/-- The control state of one in-flight Refresh between its atomic store
accesses. The parse and the validation are pure and attached to the
load; generation is pure and attached to the insert; the store accesses
themselves (load, revoke UPDATE, insert) are the three atomic steps,
matching the statement boundaries of TokenService.Refresh. -/
inductive RefreshPhase where
  | ready
  | needRevoke (userID jti oldJTI : Nat)
  | needCreate (userID jti oldJTI : Nat)
  | done (result : Except GoErr (String × String))

/-- One in-flight Refresh call. -/
structure RefreshThread where
  presented : String
  call : RefreshCall
  phase : RefreshPhase

/-- One atomic step of TokenService.Refresh against the shared store. -/
def refreshStep (mgr : TokenManagerModel) (db : List RefreshToken)
    (t : RefreshThread) : List RefreshToken × RefreshThread :=
  match t.phase with
  | RefreshPhase.ready =>
      match mgr.parseRefreshToken t.presented with
      | Except.error e => (db, { t with phase := RefreshPhase.done (Except.error e) })
      | Except.ok (userID, jti) =>
          match RefreshTokenRepository.GetByJTI db jti with
          | Except.error e => (db, { t with phase := RefreshPhase.done (Except.error e) })
          | Except.ok rt =>
              match validateRecord rt (mgr.hashRefresh t.presented) t.call.nowValidate with
              | some e => (db, { t with phase := RefreshPhase.done (Except.error e) })
              | none => (db, { t with phase := RefreshPhase.needRevoke userID jti rt.jti })
  | RefreshPhase.needRevoke userID jti oldJTI =>
      (RefreshTokenRepository.RevokeByJTI db jti t.call.nowRevoke,
       { t with phase := RefreshPhase.needCreate userID jti oldJTI })
  | RefreshPhase.needCreate userID _jti oldJTI =>
      match t.call.genAccess with
      | Except.error e =>
          (db, { t with phase :=
            RefreshPhase.done (Except.error (GoErr.wrapped "issue new access" e)) })
      | Except.ok access =>
          match t.call.genRefresh with
          | Except.error e =>
              (db, { t with phase :=
                RefreshPhase.done (Except.error (GoErr.wrapped "issue new refresh" e)) })
          | Except.ok (refresh, newJTI) =>
              match t.call.createErr with
              | some e =>
                  (db, { t with phase :=
                    RefreshPhase.done (Except.error (GoErr.wrapped "persist new refresh" e)) })
              | none =>
                  (db ++ [mkRotatedToken mgr t.call userID oldJTI refresh newJTI],
                   { t with phase := RefreshPhase.done (Except.ok (access, refresh)) })
  | RefreshPhase.done _ => (db, t)

namespace TokenService

/-- TokenService.Refresh: the sequential execution of the three atomic
steps of one call; after three steps the call has always reached done. -/
def Refresh (mgr : TokenManagerModel) (call : RefreshCall)
    (db : List RefreshToken) (presented : String) :
    Except GoErr (String × String) × List RefreshToken :=
  let s0 := refreshStep mgr db
    { presented := presented, call := call, phase := RefreshPhase.ready }
  let s1 := refreshStep mgr s0.1 s0.2
  let s2 := refreshStep mgr s1.1 s1.2
  match s2.2.phase with
  | RefreshPhase.done result => (result, s2.1)
  | _ => (Except.error (GoErr.msgErr "refresh incomplete"), s2.1)

end TokenService

/-- Run two concurrent Refresh calls under an explicit schedule: true
steps the first thread, false the second; each step is one atomic store
access of refreshStep. -/
def runSchedule (mgr : TokenManagerModel) :
    List Bool → List RefreshToken → RefreshThread → RefreshThread →
    List RefreshToken × RefreshThread × RefreshThread
  | [], db, a, b => (db, a, b)
  | true :: rest, db, a, b =>
      let s := refreshStep mgr db a
      runSchedule mgr rest s.1 s.2 b
  | false :: rest, db, a, b =>
      let s := refreshStep mgr db b
      runSchedule mgr rest s.1 a s.2

/-- Concrete manager for the C3 evaluation: r1 parses to user 1 with
jti 10, r2 and r3 to the rotated jtis; the hash of a string is the
singleton of its length. -/
def c3Mgr : TokenManagerModel :=
  { parseRefreshToken := fun s =>
      if s = "r1" then Except.ok (1, 10)
      else if s = "r2" then Except.ok (1, 20)
      else if s = "r3" then Except.ok (1, 30)
      else Except.error (GoErr.msgErr "invalid token"),
    hashRefresh := fun s => [s.length] }

/-- The live stored row for token r1 in the C3 evaluation. -/
def c3Row : RefreshToken :=
  { id := 1, jti := 10, userID := 1, tokenHash := [2], issuedAt := 0,
    expiresAt := 1000000, revokedAt := none, rotatedFromJTI := none,
    createdAt := 0, updatedAt := 0 }

/-- Call environment of the first concurrent Refresh in the C3 run. -/
def c3CallA : RefreshCall :=
  { genAccess := Except.ok "a1", genRefresh := Except.ok ("r2", 20),
    createErr := none, newID := 2, nowValidate := 1, nowRevoke := 2,
    nowCreate := 3 }

/-- Call environment of the second concurrent Refresh in the C3 run. -/
def c3CallB : RefreshCall :=
  { genAccess := Except.ok "a2", genRefresh := Except.ok ("r3", 30),
    createErr := none, newID := 3, nowValidate := 1, nowRevoke := 4,
    nowCreate := 5 }

/- ===================== theorems ===================== -/

/-- find? skips a prefix on which the predicate fails everywhere. -/
theorem find?_append_of_none {α : Type} {p : α → Bool} {l1 : List α}
    (h : l1.find? p = none) (l2 : List α) :
    (l1 ++ l2).find? p = l2.find? p := by
  rw [List.find?_append, h, Option.none_or]

/-- C1: the claim says a non-owner GetRecord and a GetRecord of an absent
id return the identical NotFound error at the wire. Evaluating the code:
the non-owner case passes the APIError through handleError and reaches
the wire as NotFound, but the absent case returns the store sentinel
wrapped by fmt.Errorf, which the switch in handleError compares by plain
equality, so it falls through to Internal. The two cases are
distinguishable, refuting the claim. -/
theorem c1_absent_and_foreign_records_wire_statuses_differ :
    RecordHandler.GetRecord c1Db 2 1 =
      Except.error { code := GrpcCode.notFound, message := "record not found" } ∧
    RecordHandler.GetRecord c1Db 1 99 =
      Except.error { code := GrpcCode.internal, message := "internal server error" } ∧
    ({ code := GrpcCode.notFound, message := "record not found" } : GrpcStatus) ≠
      { code := GrpcCode.internal, message := "internal server error" } := by
  refine ⟨rfl, rfl, ?_⟩
  decide

/-- C2: the claim says that when the upload succeeds and the record
insert fails, the service issues a best-effort blob delete for the
uploaded key. Evaluating saveRecord at such an input shows the code does
not: the short declaration reassigns record to the zero value the failed
Create returns, the compensation branch tests that empty S3 key, and the
issued effects are exactly the upload and the insert, with no blob
delete; the insert failure is returned and the uploaded blob is left
behind. The upload-failure half of the claim does hold: no insert is
attempted and the database is unchanged. -/
theorem c2_compensation_never_runs :
    RecordService.saveRecord
      { uploadErr := none, createErr := some (GoErr.msgErr "backend"), deleteErr := none }
      [] c2Rec true 7 =
      (Except.error (GoErr.wrapped "failed to create record" (GoErr.msgErr "backend")), [],
       [StoreEffect.upload "user-1/record-2/file-3", StoreEffect.insert 9]) ∧
    (∀ k : String, StoreEffect.deleteBlob k ∉
      (RecordService.saveRecord
        { uploadErr := none, createErr := some (GoErr.msgErr "backend"), deleteErr := none }
        [] c2Rec true 7).2.2) ∧
    RecordService.saveRecord
      { uploadErr := some (GoErr.msgErr "net"), createErr := none, deleteErr := none }
      [] c2Rec true 7 =
      (Except.error (GoErr.wrapped "failed to upload to storage" (GoErr.msgErr "net")), [],
       [StoreEffect.upload "user-1/record-2/file-3"]) := by
  refine ⟨rfl, ?_, rfl⟩
  intro k
  simp [RecordService.saveRecord, RecordService.saveRecordInsert, c2Rec, zeroRecord]

/-- C6: with a non-null request id, CreateRecord is idempotent for the
pair (owner, requestId): the first call appends exactly one row, and a
second call with the same key and a possibly different payload returns
the first record unchanged (same id, same stored payload) and appends
nothing. -/
theorem c6_create_record_idempotent
    (env : SaveEnv) (userDb : List Nat) (db : List Record)
    (p1 p2 : RecordService.CreateRecordParams) (id1 id2 n1 n2 : Nat)
    (henv : env.createErr = none)
    (huser : userDb.contains p1.userID = true)
    (howner : p2.userID = p1.userID)
    (hreq : p2.requestID = p1.requestID)
    (hrid : p1.requestID ≠ 0)
    (hfree : ∀ r ∈ db, ¬(r.ownerID = p1.userID ∧ r.requestID = p1.requestID)) :
    RecordService.CreateRecord env userDb db p1 id1 n1 =
      (Except.ok (RecordService.createdRecord p1 id1 n1),
       db ++ [{ RecordService.createdRecord p1 id1 n1 with requestID := p1.requestID }]) ∧
    RecordService.CreateRecord env userDb
        (db ++ [{ RecordService.createdRecord p1 id1 n1 with requestID := p1.requestID }])
        p2 id2 n2 =
      (Except.ok (RecordService.createdRecord p1 id1 n1),
       db ++ [{ RecordService.createdRecord p1 id1 n1 with requestID := p1.requestID }]) := by
  have h0 : (p1.requestID == 0) = false := by
    simp only [beq_eq_false_iff_ne, ne_eq]
    exact hrid
  have hfind1 : db.find? (fun r => r.ownerID == p1.userID && r.requestID == p1.requestID)
      = none := by
    rw [List.find?_eq_none]
    intro r hr
    simp only [Bool.and_eq_true, beq_iff_eq, not_and]
    intro h1 h2
    exact hfree r hr ⟨h1, h2⟩
  have hmem : p1.userID ∈ userDb := by simpa using huser
  refine ⟨?_, ?_⟩
  · simp [RecordService.createdRecord,
      RecordService.CreateRecord, RecordService.saveRecord,
      RecordService.saveRecordInsert, RecordRepository.Create,
      hmem, hrid, henv, h0, hfind1]
  · have huser2 : userDb.contains p2.userID = true := by rw [howner]; exact huser
    have h02 : (p2.requestID == 0) = false := by rw [hreq]; exact h0
    simp only [RecordService.createdRecord,
      RecordService.CreateRecord, RecordService.saveRecord,
      RecordService.saveRecordInsert, RecordRepository.Create,
      huser2, henv, h02, howner, hreq, Bool.not_true, Bool.false_eq_true,
      if_false]
    rw [find?_append_of_none hfind1]
    simp [hmem, hrid]

/-- Witness for C6 at a concrete input: user 1 creates twice with request
id 7 and differing payloads; the second call returns the first row. -/
theorem c6_witness :
    RecordService.CreateRecord okEnv [1] [] c6p1 11 5 =
      (Except.ok (RecordService.createdRecord c6p1 11 5),
       [] ++ [{ RecordService.createdRecord c6p1 11 5 with requestID := c6p1.requestID }]) ∧
    RecordService.CreateRecord okEnv [1]
        ([] ++ [{ RecordService.createdRecord c6p1 11 5 with requestID := c6p1.requestID }])
        c6p2 12 6 =
      (Except.ok (RecordService.createdRecord c6p1 11 5),
       [] ++ [{ RecordService.createdRecord c6p1 11 5 with requestID := c6p1.requestID }]) :=
  c6_create_record_idempotent okEnv [1] [] c6p1 c6p2 11 12 5 6 rfl rfl rfl rfl
    (by decide) (by simp)

/-- Unrolling the closed form of the download loop by one full chunk. -/
theorem chunkFrames_step (cs : Nat) (content : List Nat) (hcs : cs ≠ 0)
    (hle : cs ≤ content.length) :
    chunkFrames cs content =
      { metadata := none, dataChunk := some (content.take cs), isLastChunk := false }
        :: chunkFrames cs (content.drop cs) := by
  unfold chunkFrames
  have hpos : 0 < cs := Nat.pos_of_ne_zero hcs
  have hdiv : content.length / cs = (content.length - cs) / cs + 1 :=
    Nat.div_eq_sub_div hpos hle
  have hlen : (content.drop cs).length = content.length - cs := by
    simp [List.length_drop]
  have hmod : (content.length - cs) % cs = content.length % cs :=
    (Nat.mod_eq_sub_mod hle).symm
  rw [hlen, hdiv, hmod, List.range_succ_eq_map]
  simp only [List.map_cons, List.cons_append, Nat.zero_mul, List.drop_zero,
    List.map_map]
  congr 1
  congr 1
  · apply List.map_congr_left
    intro i hi
    simp only [Function.comp_apply, List.drop_drop]
    have harith : i.succ * cs = cs + i * cs := by
      rw [Nat.succ_mul, Nat.add_comm]
    rw [harith]
  · by_cases h : content.length % cs = 0
    · simp [h]
    · simp only [h, if_false, List.drop_drop]
      ring_nf

/-- The download loop computes the closed form chunkFrames. -/
theorem sendDataChunks_eq_chunkFrames (cs : Nat) (hcs : cs ≠ 0) :
    ∀ (n : Nat) (content : List Nat), content.length ≤ n →
      RecordService.sendDataChunks cs content = chunkFrames cs content := by
  intro n
  induction n with
  | zero =>
      intro content hlen
      have hnil : content = [] := List.eq_nil_of_length_eq_zero (Nat.le_zero.mp hlen)
      subst hnil
      rw [RecordService.sendDataChunks]
      simp [chunkFrames, Nat.pos_of_ne_zero hcs, hcs]
  | succ n ih =>
      intro content hlen
      rw [RecordService.sendDataChunks]
      by_cases hnil : content = []
      · subst hnil
        simp [chunkFrames, hcs]
      · by_cases hlt : content.length < cs
        · have hlenpos : content.length ≠ 0 :=
            fun h => hnil (List.eq_nil_of_length_eq_zero h)
          have hdiv : content.length / cs = 0 := Nat.div_eq_of_lt hlt
          have hmod : content.length % cs = content.length := Nat.mod_eq_of_lt hlt
          simp [hcs, hnil, hlt, chunkFrames, hdiv, hmod, hlenpos]
        · have hle : cs ≤ content.length := Nat.le_of_not_lt hlt
          have hrec : (content.drop cs).length ≤ n := by
            simp only [List.length_drop]
            omega
          rw [chunkFrames_step cs content hcs hle]
          simp only [hcs, hnil, hlt, if_false]
          rw [ih (content.drop cs) hrec]

/-- C7 counterexample: a 4-byte blob with chunk size 4 (an exact
multiple). The code sends the metadata frame and one full chunk with
isLastChunk=false, then the read loop hits EOF with zero bytes and stops
without ever emitting a frame whose isLastChunk flag is true, so the
stream does not end with a marked frame as the claim states. -/
theorem c7_counterexample :
    RecordService.StreamRecordToClient c7Db c7Storage 1 1 =
      ([{ metadata := some (RecordService.buildRecordMetadata c7Rec),
          dataChunk := none, isLastChunk := false },
        { metadata := none, dataChunk := some [1, 2, 3, 4], isLastChunk := false }],
       none) ∧
    Option.map GetRecordStreamResponse.isLastChunk
        (RecordService.StreamRecordToClient c7Db c7Storage 1 1).1.getLast? =
      some false := by
  have h : RecordService.StreamRecordToClient c7Db c7Storage 1 1 =
      ([{ metadata := some (RecordService.buildRecordMetadata c7Rec),
          dataChunk := none, isLastChunk := false },
        { metadata := none, dataChunk := some [1, 2, 3, 4], isLastChunk := false }],
       none) := by
    simp [RecordService.StreamRecordToClient, RecordService.GetRecord,
      RecordRepository.GetByID, c7Db, c7Rec, c7Storage,
      RecordService.buildRecordMetadata, RecordService.sendDataChunks]
  exact ⟨h, by rw [h]; rfl⟩

/-- C7 as amended: the download sends exactly one metadata frame first
(carrying no data), then the blob in encryptedChunkSize chunks; full
chunks are sent with isLastChunk=false and a short final read is sent as
the last chunk with isLastChunk=true, but when the blob length is an
exact multiple of the chunk size every frame is unmarked and the stream
simply ends (see chunkFrames). With a blob key and a non-positive chunk
size the download fails with the invalid-chunk-size error, and with no
blob key it fails with the no-data error, in both cases after the
metadata frame. -/
theorem c7_streaming_download
    (db : List Record) (storage : String → Option (List Nat))
    (userID recordID : Nat) (record : Record) (content : List Nat)
    (huid : userID ≠ 0) (hrid : recordID ≠ 0)
    (hget : RecordService.GetRecord db userID recordID = Except.ok record) :
    (record.s3Key ≠ "" → storage record.s3Key = some content →
      0 < record.encryptedChunkSize →
      RecordService.StreamRecordToClient db storage userID recordID =
        ({ metadata := some (RecordService.buildRecordMetadata record),
           dataChunk := none, isLastChunk := false }
          :: chunkFrames record.encryptedChunkSize.toNat content, none)) ∧
    (record.s3Key ≠ "" → storage record.s3Key = some content →
      record.encryptedChunkSize ≤ 0 →
      RecordService.StreamRecordToClient db storage userID recordID =
        ([{ metadata := some (RecordService.buildRecordMetadata record),
            dataChunk := none, isLastChunk := false }],
         some (GoErr.msgErr "invalid encrypted chunk size"))) ∧
    (record.s3Key = "" →
      RecordService.StreamRecordToClient db storage userID recordID =
        ([{ metadata := some (RecordService.buildRecordMetadata record),
            dataChunk := none, isLastChunk := false }],
         some (GoErr.msgErr "no data available for record"))) := by
  have hu : (userID == 0) = false := by
    simp only [beq_eq_false_iff_ne, ne_eq]
    exact huid
  have hr : (recordID == 0) = false := by
    simp only [beq_eq_false_iff_ne, ne_eq]
    exact hrid
  refine ⟨?_, ?_, ?_⟩
  · intro hkey hstore hpos
    have hk : (record.s3Key == "") = false := by
      simp only [beq_eq_false_iff_ne, ne_eq]
      exact hkey
    have hcs : record.encryptedChunkSize.toNat ≠ 0 := by omega
    have hnotle : ¬(record.encryptedChunkSize ≤ 0) := by omega
    simp only [RecordService.StreamRecordToClient, hu, hr, hget, hk, hstore,
      hnotle, Bool.false_eq_true, if_false]
    rw [sendDataChunks_eq_chunkFrames record.encryptedChunkSize.toNat hcs
      content.length content (Nat.le_refl _)]
  · intro hkey hstore hle
    have hk : (record.s3Key == "") = false := by
      simp only [beq_eq_false_iff_ne, ne_eq]
      exact hkey
    simp only [RecordService.StreamRecordToClient, hu, hr, hget, hk, hstore,
      hle, Bool.false_eq_true, if_false, if_true]
  · intro hkey
    have hk : (record.s3Key == "") = true := by
      simp only [beq_iff_eq]
      exact hkey
    simp only [RecordService.StreamRecordToClient, hu, hr, hget, hk,
      Bool.false_eq_true, if_false, if_true]

/-- Witness for C7 at the concrete 4-byte blob with chunk size 4. -/
theorem c7_witness :
    RecordService.StreamRecordToClient c7Db c7Storage 1 1 =
      ({ metadata := some (RecordService.buildRecordMetadata c7Rec),
         dataChunk := none, isLastChunk := false }
        :: chunkFrames c7Rec.encryptedChunkSize.toNat [1, 2, 3, 4], none) :=
  (c7_streaming_download c7Db c7Storage 1 1 c7Rec [1, 2, 3, 4]
    (by decide) (by decide) rfl).1 (by decide) rfl (by decide)

/-- C10: after a successful DeleteRecord, the store GetByID no longer
sees the row, so every point lookup of that id answers not-found even
for the owner: GetRecord returns the wrapped store sentinel, a repeated
DeleteRecord returns the api record-not-found error, and the streaming
download returns it too with no frames sent. -/
theorem c10_soft_delete_invisible
    (db : List Record) (userID recordID now : Nat) (db2 : List Record)
    (h : RecordService.DeleteRecord db userID recordID now = Except.ok db2) :
    RecordRepository.GetByID db2 recordID = Except.error GoErr.errNotFound ∧
    (∀ u, RecordService.GetRecord db2 u recordID =
      Except.error (GoErr.wrapped "failed to get record by id" GoErr.errNotFound)) ∧
    (∀ u now2, RecordService.DeleteRecord db2 u recordID now2 =
      Except.error (GoErr.apiRecordNotFound recordID)) ∧
    (∀ (u : Nat) (storage : String → Option (List Nat)), u ≠ 0 → recordID ≠ 0 →
      RecordService.StreamRecordToClient db2 storage u recordID =
        ([], some (GoErr.apiRecordNotFound recordID))) := by
  -- extract the soft-deleted shape of db2 from the successful delete
  have hdb2 : db2 = db.map (fun r =>
      if r.id == recordID && r.deletedAt.isNone then
        { r with deletedAt := some now, updatedAt := now }
      else r) := by
    unfold RecordService.DeleteRecord at h
    split at h
    · split_ifs at h
    · split_ifs at h with howner
      split at h
      · split_ifs at h
      · rename_i db2x heq2
        simp only [Except.ok.injEq] at h
        subst h
        unfold RecordRepository.SoftDelete at heq2
        split_ifs at heq2 with hcount
        simp only [Except.ok.injEq] at heq2
        exact heq2.symm
  have hfind : db2.find? (fun r => r.id == recordID && r.deletedAt.isNone) = none := by
    rw [hdb2, List.find?_eq_none]
    intro x hx
    rcases List.mem_map.mp hx with ⟨r, hr, rfl⟩
    by_cases hc : (r.id == recordID && r.deletedAt.isNone) = true
    · simp [hc]
    · rw [if_neg hc]
      simp only [Bool.not_eq_true] at hc
      simp [hc]
  have hbyid : RecordRepository.GetByID db2 recordID = Except.error GoErr.errNotFound := by
    unfold RecordRepository.GetByID
    rw [hfind]
  refine ⟨hbyid, ?_, ?_, ?_⟩
  · intro u
    unfold RecordService.GetRecord
    rw [hbyid]
  · intro u now2
    unfold RecordService.DeleteRecord
    rw [hbyid]
    rfl
  · intro u storage hu hrid
    have hu2 : (u == 0) = false := by
      simp only [beq_eq_false_iff_ne, ne_eq]
      exact hu
    have hr2 : (recordID == 0) = false := by
      simp only [beq_eq_false_iff_ne, ne_eq]
      exact hrid
    unfold RecordService.StreamRecordToClient
    rw [hu2, hr2]
    unfold RecordService.GetRecord
    rw [hbyid]
    rfl

/-- Witness for C10: delete the single record of user 1, then observe
that the store lookup, GetRecord, a repeated delete, and the streaming
download all answer not-found for the deleted id. -/
theorem c10_witness :
    RecordRepository.GetByID (RecordRepository.SoftDelete c1Db 1 9).toOption.get! 1 =
        Except.error GoErr.errNotFound ∧
    RecordService.GetRecord (RecordRepository.SoftDelete c1Db 1 9).toOption.get! 1 1 =
        Except.error (GoErr.wrapped "failed to get record by id" GoErr.errNotFound) := by
  have hdel : RecordService.DeleteRecord c1Db 1 1 9 =
      Except.ok ((RecordRepository.SoftDelete c1Db 1 9).toOption.get!) := by
    simp [RecordService.DeleteRecord, RecordRepository.GetByID,
      RecordRepository.SoftDelete, c1Db, Except.toOption, Option.get!]
  have hmain := c10_soft_delete_invisible c1Db 1 1 9 _ hdel
  exact ⟨hmain.1, hmain.2.1 1⟩

/-- The metadata-reading loop passes over skippable frames, spending one
attempt of the budget per frame. -/
theorem readMetadataAux_skip (pre : List CreateRecordStreamRequest)
    (hskip : ∀ f ∈ pre, skipFrame f = true) :
    ∀ (n : Nat) (rest : List CreateRecordStreamRequest),
      RecordService.readMetadataAux (pre.length + n) (pre ++ rest) =
        RecordService.readMetadataAux n rest := by
  induction pre with
  | nil => intro n rest; simp
  | cons f pre ih =>
      intro n rest
      have hf := hskip f (List.mem_cons_self f pre)
      have hpre : ∀ g ∈ pre, skipFrame g = true :=
        fun g hg => hskip g (List.mem_cons_of_mem f hg)
      obtain ⟨fm, fd, fb⟩ := f
      simp only [List.length_cons, List.cons_append]
      rw [show pre.length + 1 + n = pre.length + n + 1 from by omega]
      cases fb with
      | true =>
          cases fm with
          | none => exact ih hpre n rest
          | some m => simp [skipFrame] at hf
      | false =>
          cases fd with
          | none => exact ih hpre n rest
          | some c =>
              have hc : c = [] := by simpa [skipFrame] using hf
              subst hc
              exact ih hpre n rest

/-- C8 counterexample: a chunk frame with an empty payload arrives
before any metadata frame, yet the read does not fail with the protocol
violation; the loop skips the frame and accepts the following metadata. -/
theorem c8_counterexample :
    RecordService.readMetadataFromStream [chunkFrame [], metadataFrame c8Meta] =
      Except.ok (c8Meta, []) := rfl

/-- C8 as amended: a chunk frame with a non-empty payload before any
accepted metadata fails with the protocol violation; nil-metadata frames
and chunk frames with nil or empty payload are skipped, each consuming
one of the 100 attempts, and 100 such frames fail the read with the
metadata-not-received error no matter what follows; the first valid
metadata frame is accepted with the remaining frames untouched; and a
later metadata frame is ignored by the pump and does not change the
outcome of CreateRecordStream in any way. -/
theorem c8_stream_framing :
    (∀ (pre : List CreateRecordStreamRequest) (chunk : List Nat)
        (rest : List CreateRecordStreamRequest),
      (∀ f ∈ pre, skipFrame f = true) → pre.length ≤ 99 → chunk ≠ [] →
      RecordService.readMetadataFromStream (pre ++ chunkFrame chunk :: rest) =
        Except.error
          (GoErr.msgErr "received data chunk before metadata - protocol violation")) ∧
    (∀ (pre rest : List CreateRecordStreamRequest),
      (∀ f ∈ pre, skipFrame f = true) → pre.length = 100 →
      RecordService.readMetadataFromStream (pre ++ rest) =
        Except.error (GoErr.msgErr "metadata not received after 100 attempts")) ∧
    (∀ (pre : List CreateRecordStreamRequest) (m : RecordMetadata)
        (rest : List CreateRecordStreamRequest),
      (∀ f ∈ pre, skipFrame f = true) → pre.length ≤ 99 →
      RecordService.readMetadataFromStream (pre ++ metadataFrame m :: rest) =
        Except.ok (m, rest)) ∧
    (∀ (env : SaveEnv) (userDb : List Nat) (db : List Record) (userID : Nat)
        (m1 m2 : RecordMetadata) (rest : List CreateRecordStreamRequest)
        (newID s3RecordID s3FileID now : Nat),
      RecordService.CreateRecordStream env userDb db userID
          (metadataFrame m1 :: metadataFrame m2 :: rest) newID s3RecordID s3FileID now =
        RecordService.CreateRecordStream env userDb db userID
          (metadataFrame m1 :: rest) newID s3RecordID s3FileID now) := by
  refine ⟨?_, ?_, ?_, ?_⟩
  · intro pre chunk rest hskip hlen hchunk
    have hsplit : (100 : Nat) = pre.length + (99 - pre.length + 1) := by omega
    rw [RecordService.readMetadataFromStream, hsplit, readMetadataAux_skip pre hskip]
    have hpos : 0 < chunk.length := List.length_pos.mpr hchunk
    simp [RecordService.readMetadataAux, chunkFrame, hpos]
  · intro pre rest hskip hlen
    have hsplit : (100 : Nat) = pre.length + 0 := by omega
    rw [RecordService.readMetadataFromStream, hsplit, readMetadataAux_skip pre hskip]
    rfl
  · intro pre m rest hskip hlen
    have hsplit : (100 : Nat) = pre.length + (99 - pre.length + 1) := by omega
    rw [RecordService.readMetadataFromStream, hsplit, readMetadataAux_skip pre hskip]
    rfl
  · intro env userDb db userID m1 m2 rest newID s3RecordID s3FileID now
    have h1 : RecordService.readMetadataFromStream
        (metadataFrame m1 :: metadataFrame m2 :: rest) =
        Except.ok (m1, metadataFrame m2 :: rest) := rfl
    have h2 : RecordService.readMetadataFromStream (metadataFrame m1 :: rest) =
        Except.ok (m1, rest) := rfl
    have h3 : RecordService.pumpDataChunks (metadataFrame m2 :: rest) =
        RecordService.pumpDataChunks rest := rfl
    simp only [RecordService.CreateRecordStream]
    rw [h1, h2]
    rfl

/-- Witness for C8 at concrete frame sequences: a non-empty chunk first
is a protocol violation; 100 empty chunk frames exhaust the attempt
budget even when valid metadata follows; a skipped empty frame then a
valid metadata frame is accepted; a duplicate metadata frame changes
nothing about a streaming create. -/
theorem c8_witness :
    RecordService.readMetadataFromStream [chunkFrame [], chunkFrame [5]] =
      Except.error
        (GoErr.msgErr "received data chunk before metadata - protocol violation") ∧
    RecordService.readMetadataFromStream
        (List.replicate 100 (chunkFrame []) ++ [metadataFrame c8Meta]) =
      Except.error (GoErr.msgErr "metadata not received after 100 attempts") ∧
    RecordService.readMetadataFromStream
        [chunkFrame [], metadataFrame c8Meta, chunkFrame [7]] =
      Except.ok (c8Meta, [chunkFrame [7]]) ∧
    RecordService.CreateRecordStream okEnv [1] [] 1
        [metadataFrame c8Meta, metadataFrame c8Meta, chunkFrame [9]] 2 3 4 5 =
      RecordService.CreateRecordStream okEnv [1] [] 1
        [metadataFrame c8Meta, chunkFrame [9]] 2 3 4 5 := by
  refine ⟨?_, ?_, ?_, ?_⟩
  · exact c8_stream_framing.1 [chunkFrame []] [5] [] (by decide) (by decide) (by decide)
  · exact c8_stream_framing.2.1 (List.replicate 100 (chunkFrame []))
      [metadataFrame c8Meta] (by decide) (by decide)
  · exact c8_stream_framing.2.2.1 [chunkFrame []] c8Meta [chunkFrame [7]]
      (by decide) (by decide)
  · exact c8_stream_framing.2.2.2 okEnv [1] [] 1 c8Meta c8Meta [chunkFrame [9]] 2 3 4 5

/-- Membership in the updated-delta read: exactly the live records of
the user updated strictly after the watermark. -/
theorem getUpdatedAfter_mem (db : List Record) (userID updatedAfter : Nat)
    (r : Record) :
    r ∈ RecordRepository.GetUpdatedAfter db userID updatedAfter ↔
      (r ∈ db ∧ r.ownerID = userID ∧ r.deletedAt = none ∧ updatedAfter < r.updatedAt) := by
  unfold RecordRepository.GetUpdatedAfter
  rw [(List.perm_insertionSort updatedLE _).mem_iff, List.mem_filter]
  simp [Option.isNone_iff_eq_none, and_assoc]

/-- Membership in the tombstone read: exactly the ids and deletion times
of the user rows deleted strictly after the watermark. -/
theorem getDeletedAfter_mem (db : List Record) (userID deletedAfter : Nat)
    (t : Tombstone) :
    t ∈ RecordRepository.GetDeletedAfter db userID deletedAfter ↔
      ∃ r : Record, r ∈ db ∧ r.ownerID = userID ∧ r.id = t.id ∧
        r.deletedAt = some t.deletedAt ∧ deletedAfter < t.deletedAt := by
  unfold RecordRepository.GetDeletedAfter
  rw [(List.perm_insertionSort deletedLE _).mem_iff, List.mem_map]
  constructor
  · rintro ⟨r, hr, rfl⟩
    rcases List.mem_filter.mp hr with ⟨hmem, hpred⟩
    rcases hd : r.deletedAt with _ | d
    · rw [hd] at hpred
      simp at hpred
    · rw [hd] at hpred
      simp only [Bool.and_eq_true, beq_iff_eq, decide_eq_true_eq] at hpred
      exact ⟨r, hmem, hpred.1, rfl, by simp [hd], by simpa [hd] using hpred.2⟩
  · rintro ⟨r, hmem, hown, hid, hdel, hlt⟩
    refine ⟨r, List.mem_filter.mpr ⟨hmem, ?_⟩, ?_⟩
    · simp [hown, hdel, hlt]
    · simp [hid, hdel]

/-- With watermark zero and positive update times, the updated-delta
read keeps every live record of the user. -/
theorem getUpdatedAfter_length_zero (db : List Record) (userID : Nat)
    (hpos : ∀ r ∈ db, r.ownerID = userID → r.deletedAt = none → 0 < r.updatedAt) :
    (RecordRepository.GetUpdatedAfter db userID 0).length =
      (db.filter (fun r => r.ownerID == userID && r.deletedAt.isNone)).length := by
  unfold RecordRepository.GetUpdatedAfter
  rw [(List.perm_insertionSort updatedLE _).length_eq]
  have hcong : db.filter (fun r =>
      r.ownerID == userID && r.deletedAt.isNone && decide (0 < r.updatedAt)) =
      db.filter (fun r => r.ownerID == userID && r.deletedAt.isNone) := by
    apply List.filter_congr
    intro r hr
    by_cases h1 : (r.ownerID == userID) = true
    · by_cases h2 : r.deletedAt.isNone = true
      · have h3 : 0 < r.updatedAt :=
          hpos r hr (by simpa using h1) (by simpa [Option.isNone_iff_eq_none] using h2)
        simp [h1, h2, h3]
      · simp [h1, h2]
    · simp [h1]
  rw [hcong]

/-- C9: the no-filter delta returns exactly the live records of the
caller updated strictly after the watermark, sorted by updated time
ascending; with includeDeleted it additionally returns the tombstones of
the caller rows deleted strictly after the watermark, else no
tombstones; the returned serverTime is the single clock value read after
the store reads complete (the clock read is the last event); and with
watermark zero all N live records of the caller come back. -/
theorem c9_delta_query (db : List Record) (userID updatedAfter now : Nat)
    (includeDeleted : Bool) :
    (∀ r : Record,
      r ∈ (RecordService.ListRecordsDelta db userID "" updatedAfter includeDeleted now).1.1 ↔
        (r ∈ db ∧ r.ownerID = userID ∧ r.deletedAt = none ∧ updatedAfter < r.updatedAt)) ∧
    List.Sorted updatedLE
      (RecordService.ListRecordsDelta db userID "" updatedAfter includeDeleted now).1.1 ∧
    (includeDeleted = true → ∀ t : Tombstone,
      t ∈ (RecordService.ListRecordsDelta db userID "" updatedAfter includeDeleted now).1.2.1 ↔
        ∃ r : Record, r ∈ db ∧ r.ownerID = userID ∧ r.id = t.id ∧
          r.deletedAt = some t.deletedAt ∧ updatedAfter < t.deletedAt) ∧
    (includeDeleted = false →
      (RecordService.ListRecordsDelta db userID "" updatedAfter includeDeleted now).1.2.1 = []) ∧
    (RecordService.ListRecordsDelta db userID "" updatedAfter includeDeleted now).1.2.2 = now ∧
    (RecordService.ListRecordsDelta db userID "" updatedAfter includeDeleted now).2.getLast? =
      some DeltaEvent.clockRead ∧
    (includeDeleted = true →
      (RecordService.ListRecordsDelta db userID "" updatedAfter includeDeleted now).2 =
        [DeltaEvent.readUpdated, DeltaEvent.readDeleted, DeltaEvent.clockRead]) ∧
    (includeDeleted = false →
      (RecordService.ListRecordsDelta db userID "" updatedAfter includeDeleted now).2 =
        [DeltaEvent.readUpdated, DeltaEvent.clockRead]) ∧
    (updatedAfter = 0 →
      (∀ r ∈ db, r.ownerID = userID → r.deletedAt = none → 0 < r.updatedAt) →
      (RecordService.ListRecordsDelta db userID "" updatedAfter includeDeleted now).1.1.length =
        (db.filter (fun r => r.ownerID == userID && r.deletedAt.isNone)).length) := by
  have hrecords :
      (RecordService.ListRecordsDelta db userID "" updatedAfter includeDeleted now).1.1 =
        RecordRepository.GetUpdatedAfter db userID updatedAfter := by
    cases includeDeleted <;> simp [RecordService.ListRecordsDelta]
  refine ⟨?_, ?_, ?_, ?_, ?_, ?_, ?_, ?_, ?_⟩
  · intro r
    rw [hrecords]
    exact getUpdatedAfter_mem db userID updatedAfter r
  · rw [hrecords]
    exact List.sorted_insertionSort updatedLE _
  · intro hdel t
    have htombs :
        (RecordService.ListRecordsDelta db userID "" updatedAfter includeDeleted now).1.2.1 =
          RecordRepository.GetDeletedAfter db userID updatedAfter := by
      subst hdel
      simp [RecordService.ListRecordsDelta]
    rw [htombs]
    exact getDeletedAfter_mem db userID updatedAfter t
  · intro hdel
    subst hdel
    simp [RecordService.ListRecordsDelta]
  · cases includeDeleted <;> simp [RecordService.ListRecordsDelta]
  · cases includeDeleted <;> simp [RecordService.ListRecordsDelta]
  · intro hdel
    subst hdel
    simp [RecordService.ListRecordsDelta]
  · intro hdel
    subst hdel
    simp [RecordService.ListRecordsDelta]
  · intro hzero hpos
    subst hzero
    rw [hrecords]
    exact getUpdatedAfter_length_zero db userID hpos

/-- Witness for C9 on a four-record database: user 1 has two live
records, one tombstone at time 5, and user 2 has one record; with
watermark 0 and includeDeleted the delta holds the live record updated
at 1, the tombstone, serverTime 99, the clock read last, and both live
records of the caller. -/
theorem c9_witness :
    c9r2 ∈ (RecordService.ListRecordsDelta c9Db 1 "" 0 true 99).1.1 ∧
    (⟨3, 5⟩ : Tombstone) ∈ (RecordService.ListRecordsDelta c9Db 1 "" 0 true 99).1.2.1 ∧
    (RecordService.ListRecordsDelta c9Db 1 "" 0 true 99).1.2.2 = 99 ∧
    (RecordService.ListRecordsDelta c9Db 1 "" 0 true 99).2 =
      [DeltaEvent.readUpdated, DeltaEvent.readDeleted, DeltaEvent.clockRead] ∧
    (RecordService.ListRecordsDelta c9Db 1 "" 0 true 99).1.1.length =
      (c9Db.filter (fun r => r.ownerID == 1 && r.deletedAt.isNone)).length := by
  have h := c9_delta_query c9Db 1 0 99 true
  refine ⟨?_, ?_, ?_, ?_, ?_⟩
  · exact (h.1 c9r2).mpr ⟨by decide, rfl, rfl, by decide⟩
  · exact (h.2.2.1 rfl ⟨3, 5⟩).mpr ⟨c9r3, by decide, rfl, rfl, rfl, by decide⟩
  · exact h.2.2.2.2.1
  · exact h.2.2.2.2.2.2.1 rfl
  · exact h.2.2.2.2.2.2.2.2 rfl (by decide)

/-- C3: two concurrent Refresh calls presenting the same token r1, under
the interleaving load A, load B, revoke A, insert A, revoke B, insert B,
BOTH succeed: the second revoke UPDATE matches zero rows but RevokeByJTI
ignores the affected-row count and reports success, and the second call
validated against the row it loaded before the first revoke. This
refutes the claim that Refresh succeeds at most once across
interleavings. -/
theorem c3_concurrent_refresh_both_succeed :
    (runSchedule c3Mgr [true, false, true, true, false, false] [c3Row]
        { presented := "r1", call := c3CallA, phase := RefreshPhase.ready }
        { presented := "r1", call := c3CallB, phase := RefreshPhase.ready }).2.1.phase =
      RefreshPhase.done (Except.ok ("a1", "r2")) ∧
    (runSchedule c3Mgr [true, false, true, true, false, false] [c3Row]
        { presented := "r1", call := c3CallA, phase := RefreshPhase.ready }
        { presented := "r1", call := c3CallB, phase := RefreshPhase.ready }).2.2.phase =
      RefreshPhase.done (Except.ok ("a2", "r3")) := by
  constructor <;> rfl

/-- C4: validateRecord rejects with Revoked when revokedAt is set, else
with Expired when now is after expiresAt, else with Mismatch when the
presented hash differs from the stored tokenHash (compared with the
constant-time primitive, modelled as byte equality); when none of these
hold, validation passes. -/
theorem c4_validate_record (rt : RefreshToken) (presentedHash : List Nat)
    (now : Nat) :
    (∀ ts : Nat, rt.revokedAt = some ts →
      validateRecord rt presentedHash now = some GoErr.errTokenRevoked) ∧
    (rt.revokedAt = none → rt.expiresAt < now →
      validateRecord rt presentedHash now = some GoErr.errTokenExpired) ∧
    (rt.revokedAt = none → now ≤ rt.expiresAt → rt.tokenHash ≠ presentedHash →
      validateRecord rt presentedHash now = some GoErr.errTokenMismatch) ∧
    (rt.revokedAt = none → now ≤ rt.expiresAt → rt.tokenHash = presentedHash →
      validateRecord rt presentedHash now = none) := by
  refine ⟨?_, ?_, ?_, ?_⟩
  · intro ts hts
    simp [validateRecord, hts]
  · intro hrev hexp
    simp [validateRecord, hrev, hexp]
  · intro hrev hexp hne
    have hnotlt : ¬(rt.expiresAt < now) := Nat.not_lt.mpr hexp
    simp [validateRecord, equalBytes, hrev, hnotlt, hne]
  · intro hrev hexp heq
    have hnotlt : ¬(rt.expiresAt < now) := Nat.not_lt.mpr hexp
    simp [validateRecord, equalBytes, hrev, hnotlt, heq]

/-- Witness for C4 on concrete rows: one revoked row, one expired row,
one live row with a wrong hash, and one live row with the right hash. -/
theorem c4_witness :
    validateRecord { c3Row with revokedAt := some 7 } [2] 1 =
      some GoErr.errTokenRevoked ∧
    validateRecord { c3Row with expiresAt := 0 } [2] 1 =
      some GoErr.errTokenExpired ∧
    validateRecord c3Row [3] 1 = some GoErr.errTokenMismatch ∧
    validateRecord c3Row [2] 1 = none := by
  refine ⟨?_, ?_, ?_, ?_⟩
  · exact (c4_validate_record { c3Row with revokedAt := some 7 } [2] 1).1 7 rfl
  · exact (c4_validate_record { c3Row with expiresAt := 0 } [2] 1).2.1 rfl (by decide)
  · exact (c4_validate_record c3Row [3] 1).2.2.1 rfl (by decide) (by decide)
  · exact (c4_validate_record c3Row [2] 1).2.2.2 rfl (by decide) rfl

/-- Evaluation of a Refresh whose parse, load, validation, generation
and insert all succeed: the old row is conditionally revoked and the
rotated row is appended. -/
theorem refresh_ok (mgr : TokenManagerModel) (call : RefreshCall)
    (db : List RefreshToken) (presented : String) (u j : Nat)
    (rt : RefreshToken) (a r : String) (newJ : Nat)
    (hparse : mgr.parseRefreshToken presented = Except.ok (u, j))
    (hfind : RefreshTokenRepository.GetByJTI db j = Except.ok rt)
    (hval : validateRecord rt (mgr.hashRefresh presented) call.nowValidate = none)
    (hga : call.genAccess = Except.ok a)
    (hgr : call.genRefresh = Except.ok (r, newJ))
    (hce : call.createErr = none) :
    TokenService.Refresh mgr call db presented =
      (Except.ok (a, r),
       RefreshTokenRepository.RevokeByJTI db j call.nowRevoke ++
         [mkRotatedToken mgr call u rt.jti r newJ]) := by
  unfold TokenService.Refresh
  simp only [refreshStep, hparse, hfind, hval, hga, hgr, hce]

/-- Evaluation of a Refresh rejected by validation: the error surfaces
and the store is untouched. -/
theorem refresh_validation_error (mgr : TokenManagerModel) (call : RefreshCall)
    (db : List RefreshToken) (presented : String) (u j : Nat)
    (rt : RefreshToken) (e : GoErr)
    (hparse : mgr.parseRefreshToken presented = Except.ok (u, j))
    (hfind : RefreshTokenRepository.GetByJTI db j = Except.ok rt)
    (hval : validateRecord rt (mgr.hashRefresh presented) call.nowValidate = some e) :
    TokenService.Refresh mgr call db presented = (Except.error e, db) := by
  unfold TokenService.Refresh
  simp only [refreshStep, hparse, hfind, hval]

/-- The conditional revoke UPDATE commutes with a jti lookup: searching
the updated table is searching the original one and updating the hit. -/
theorem find?_jti_revokeByJTI (db : List RefreshToken) (target now j : Nat) :
    (RefreshTokenRepository.RevokeByJTI db target now).find?
        (fun rt => rt.jti == j) =
      Option.map
        (fun rt =>
          if rt.jti == target && rt.revokedAt.isNone then
            { rt with revokedAt := some now, updatedAt := now }
          else rt)
        (db.find? (fun rt => rt.jti == j)) := by
  unfold RefreshTokenRepository.RevokeByJTI
  rw [List.find?_map]
  have hfun : ((fun rt => rt.jti == j) ∘ fun rt =>
      if rt.jti == target && rt.revokedAt.isNone then
        { rt with revokedAt := some now, updatedAt := now }
      else rt) = (fun rt : RefreshToken => rt.jti == j) := by
    funext rt
    simp only [Function.comp_apply]
    cases hx : (rt.jti == target && rt.revokedAt.isNone) with
    | true => rfl
    | false => rfl
  rw [hfun]

/-- C5: after a successful rotation of r1 into r2, presenting r1 again
fails with TokenRevoked (the row now carries revokedAt), while
presenting r2 succeeds and returns the fresh pair. -/
theorem c5_rotation
    (mgr : TokenManagerModel) (cA cB cC : RefreshCall)
    (db0 : List RefreshToken) (rt1 : RefreshToken)
    (r1 a1 r2 a3 r4 : String) (u j1 j2 j4 : Nat)
    (hparse1 : mgr.parseRefreshToken r1 = Except.ok (u, j1))
    (hparse2 : mgr.parseRefreshToken r2 = Except.ok (u, j2))
    (hfind : RefreshTokenRepository.GetByJTI db0 j1 = Except.ok rt1)
    (hjti : rt1.jti = j1)
    (hrev : rt1.revokedAt = none)
    (hexp1 : cA.nowValidate ≤ rt1.expiresAt)
    (hhash : rt1.tokenHash = mgr.hashRefresh r1)
    (hga1 : cA.genAccess = Except.ok a1)
    (hgr1 : cA.genRefresh = Except.ok (r2, j2))
    (hce1 : cA.createErr = none)
    (hfresh : ∀ rt ∈ db0, rt.jti ≠ j2)
    (hexp2 : cC.nowValidate ≤ cA.nowCreate + refreshTTL)
    (hga3 : cC.genAccess = Except.ok a3)
    (hgr3 : cC.genRefresh = Except.ok (r4, j4))
    (hce3 : cC.createErr = none) :
    TokenService.Refresh mgr cA db0 r1 =
      (Except.ok (a1, r2),
       RefreshTokenRepository.RevokeByJTI db0 j1 cA.nowRevoke ++
         [mkRotatedToken mgr cA u j1 r2 j2]) ∧
    (TokenService.Refresh mgr cB
        (RefreshTokenRepository.RevokeByJTI db0 j1 cA.nowRevoke ++
          [mkRotatedToken mgr cA u j1 r2 j2]) r1).1 =
      Except.error GoErr.errTokenRevoked ∧
    (TokenService.Refresh mgr cC
        (RefreshTokenRepository.RevokeByJTI db0 j1 cA.nowRevoke ++
          [mkRotatedToken mgr cA u j1 r2 j2]) r2).1 =
      Except.ok (a3, r4) := by
  have hval1 : validateRecord rt1 (mgr.hashRefresh r1) cA.nowValidate = none := by
    have hnotlt : ¬(rt1.expiresAt < cA.nowValidate) := Nat.not_lt.mpr hexp1
    simp [validateRecord, equalBytes, hrev, hnotlt, hhash]
  have hfind0 : db0.find? (fun rt => rt.jti == j1) = some rt1 := by
    unfold RefreshTokenRepository.GetByJTI at hfind
    cases hf : db0.find? (fun rt => rt.jti == j1) with
    | some rt =>
        rw [hf] at hfind
        simp only [Except.ok.injEq] at hfind
        rw [hfind]
    | none => rw [hf] at hfind; exact absurd hfind (by simp)
  have hstep1 := refresh_ok mgr cA db0 r1 u j1 rt1 a1 r2 j2
    hparse1 hfind hval1 hga1 hgr1 hce1
  rw [hjti] at hstep1
  -- the revoked image of rt1 that the second call loads
  have hfind1 :
      (RefreshTokenRepository.RevokeByJTI db0 j1 cA.nowRevoke ++
        [mkRotatedToken mgr cA u j1 r2 j2]).find? (fun rt => rt.jti == j1) =
      some { rt1 with revokedAt := some cA.nowRevoke, updatedAt := cA.nowRevoke } := by
    have hcond : (rt1.jti == j1 && rt1.revokedAt.isNone) = true := by
      simp [hjti, hrev]
    rw [List.find?_append, find?_jti_revokeByJTI, hfind0]
    simp only [Option.map_some']
    rw [if_pos hcond]
    rfl
  have hfind2 :
      (RefreshTokenRepository.RevokeByJTI db0 j1 cA.nowRevoke ++
        [mkRotatedToken mgr cA u j1 r2 j2]).find? (fun rt => rt.jti == j2) =
      some (mkRotatedToken mgr cA u j1 r2 j2) := by
    rw [List.find?_append, find?_jti_revokeByJTI]
    have hnone : db0.find? (fun rt => rt.jti == j2) = none := by
      rw [List.find?_eq_none]
      intro rt hrt
      simpa using hfresh rt hrt
    rw [hnone]
    simp [mkRotatedToken]
  refine ⟨hstep1, ?_, ?_⟩
  · have hget1 : RefreshTokenRepository.GetByJTI
        (RefreshTokenRepository.RevokeByJTI db0 j1 cA.nowRevoke ++
          [mkRotatedToken mgr cA u j1 r2 j2]) j1 =
        Except.ok { rt1 with revokedAt := some cA.nowRevoke, updatedAt := cA.nowRevoke } := by
      unfold RefreshTokenRepository.GetByJTI
      rw [hfind1]
    have hval2 : validateRecord
        { rt1 with revokedAt := some cA.nowRevoke, updatedAt := cA.nowRevoke }
        (mgr.hashRefresh r1) cB.nowValidate = some GoErr.errTokenRevoked := by
      simp [validateRecord]
    rw [refresh_validation_error mgr cB _ r1 u j1 _ GoErr.errTokenRevoked
      hparse1 hget1 hval2]
  · have hget2 : RefreshTokenRepository.GetByJTI
        (RefreshTokenRepository.RevokeByJTI db0 j1 cA.nowRevoke ++
          [mkRotatedToken mgr cA u j1 r2 j2]) j2 =
        Except.ok (mkRotatedToken mgr cA u j1 r2 j2) := by
      unfold RefreshTokenRepository.GetByJTI
      rw [hfind2]
    have hval3 : validateRecord (mkRotatedToken mgr cA u j1 r2 j2)
        (mgr.hashRefresh r2) cC.nowValidate = none := by
      have hnotlt : ¬(cA.nowCreate + refreshTTL < cC.nowValidate) :=
        Nat.not_lt.mpr hexp2
      simp [validateRecord, equalBytes, mkRotatedToken, hnotlt]
    rw [refresh_ok mgr cC _ r2 u j2 (mkRotatedToken mgr cA u j1 r2 j2) a3 r4 j4
      hparse2 hget2 hval3 hga3 hgr3 hce3]

/-- Witness for C5 on the concrete row for r1: rotating r1 yields the
pair (a1, r2); replaying r1 fails with TokenRevoked; presenting r2
succeeds. -/
theorem c5_witness :
    TokenService.Refresh c3Mgr c3CallA [c3Row] "r1" =
      (Except.ok ("a1", "r2"),
       RefreshTokenRepository.RevokeByJTI [c3Row] 10 c3CallA.nowRevoke ++
         [mkRotatedToken c3Mgr c3CallA 1 10 "r2" 20]) ∧
    (TokenService.Refresh c3Mgr c3CallB
        (RefreshTokenRepository.RevokeByJTI [c3Row] 10 c3CallA.nowRevoke ++
          [mkRotatedToken c3Mgr c3CallA 1 10 "r2" 20]) "r1").1 =
      Except.error GoErr.errTokenRevoked ∧
    (TokenService.Refresh c3Mgr c3CallB
        (RefreshTokenRepository.RevokeByJTI [c3Row] 10 c3CallA.nowRevoke ++
          [mkRotatedToken c3Mgr c3CallA 1 10 "r2" 20]) "r2").1 =
      Except.ok ("a2", "r3") :=
  c5_rotation c3Mgr c3CallA c3CallB c3CallB [c3Row] c3Row
    "r1" "a1" "r2" "a2" "r3" 1 10 20 30
    rfl rfl rfl rfl rfl (by decide) rfl rfl rfl rfl
    (by decide) (by decide) rfl rfl rfl

end Gophkeeper
